import Mathlib

/-!
Calculator (script.js): a shallow embedding.

The calculator of `script.js` keeps five module-level variables and two DOM
text nodes.  Here they are the fields of one record, `State`, and every
function of the script that touches them is a function on `State`.

The script relies on the JavaScript number runtime (`parseFloat`,
`Number.prototype.toString`, `Number.prototype.toPrecision`, the arithmetic
operators).  That runtime is embedded in the first part of the file as exact
integer arithmetic on IEEE 754 binary64 values, following ECMA-262.

CSS class changes (`classList.add`, `classList.remove`) and the operator
highlight are presentation only: nothing in the script reads them back, so
they are not part of `State`.
-/

namespace Calculator

/-! ## JavaScript strings -/

/-- A JavaScript string is a sequence of UTF-16 code units. -/
abbrev JSString := List Nat

/-- The UTF-16 code units of one Unicode scalar value. -/
def utf16Char (c : Char) : List Nat :=
  if c.toNat < 0x10000 then [c.toNat]
  else [0xD800 + (c.toNat - 0x10000) / 0x400, 0xDC00 + (c.toNat - 0x10000) % 0x400]

/-- The UTF-16 code units of a list of characters. -/
def utf16List : List Char → JSString
  | [] => []
  | c :: cs => utf16Char c ++ utf16List cs

/-- The JavaScript string written as the literal `s`. -/
def utf16 (s : String) : JSString := utf16List s.data

/-- The code unit of an ASCII character. -/
def code (c : Char) : Nat := c.toNat

/-- Whether a code unit is one of `0` .. `9`. -/
def isDigit (c : Nat) : Bool := decide (48 ≤ c ∧ c ≤ 57)

/-- Code units skipped by `TrimString`: ECMA-262 WhiteSpace and LineTerminator. -/
def isWhiteSpace (c : Nat) : Bool :=
  decide (c = 9 ∨ c = 10 ∨ c = 11 ∨ c = 12 ∨ c = 13 ∨ c = 32 ∨ c = 0xA0 ∨ c = 0x1680 ∨
    (0x2000 ≤ c ∧ c ≤ 0x200A) ∨ c = 0x2028 ∨ c = 0x2029 ∨ c = 0x202F ∨ c = 0x205F ∨
    c = 0x3000 ∨ c = 0xFEFF)

/-- The text of `String.prototype.startsWith`: `p` is an initial segment of `s`. -/
def startsWith : JSString → JSString → Bool
  | _, [] => true
  | [], _ :: _ => false
  | a :: s, b :: p => decide (a = b) && startsWith s p

/-- The text of `String.prototype.includes` for a one-unit search string. -/
def includes (s : JSString) (c : Nat) : Bool := s.contains c

/-- Decimal digits of a natural number, most significant first (helper with fuel). -/
def decimalDigitsAux : Nat → Nat → JSString → JSString
  | 0, _, acc => acc
  | fuel + 1, n, acc =>
    if n < 10 then (48 + n) :: acc
    else decimalDigitsAux fuel (n / 10) ((48 + n % 10) :: acc)

/-- Decimal digits of a natural number, most significant first. -/
def decimalDigits (n : Nat) : JSString := decimalDigitsAux (n + 1) n []

/-- The natural number written by a list of decimal digits. -/
def digitsValue (ds : JSString) : Nat := ds.foldl (fun acc c => 10 * acc + (c - 48)) 0

/-! ## JavaScript numbers (IEEE 754 binary64) -/

/-- A Number value.  `fin neg m e` is `(-1)^neg * m * 2^e`; the values produced
by the runtime are canonical: `m < 2^53`, `-1074 ≤ e ≤ 971`, and `2^52 ≤ m`
unless `e = -1074` (zeros and subnormals). -/
inductive JSNumber
  | nan
  | inf (neg : Bool)
  | fin (neg : Bool) (m : Nat) (e : Int)
  deriving DecidableEq, Repr

/-- Number of binary digits of `n` (helper with fuel). -/
def bitLengthAux : Nat → Nat → Nat
  | 0, _ => 0
  | fuel + 1, n =>
    if n = 0 then 0
    else if 2 ^ 64 ≤ n then bitLengthAux fuel (n / 2 ^ 64) + 64
    else bitLengthAux fuel (n / 2) + 1

/-- Number of binary digits of `n`: `2^(bitLength n - 1) ≤ n < 2^(bitLength n)` for `0 < n`. -/
def bitLength (n : Nat) : Nat := bitLengthAux n n

/-- The Number value nearest to the rational `n / d` (ties to even mantissa),
with the sign `neg`; magnitudes that round past the largest finite value give
an infinity. -/
def roundToDouble (neg : Bool) (n d : Nat) : JSNumber :=
  if n = 0 ∨ d = 0 then .fin neg 0 (-1074)
  else
    let l : Int := (bitLength n : Int) - (bitLength d : Int)
    let p : Int := if d * 2 ^ l.toNat ≤ n * 2 ^ (-l).toNat then l else l - 1
    let e : Int := if p - 52 < -1074 then -1074 else p - 52
    let num := n * 2 ^ (-e).toNat
    let den := d * 2 ^ e.toNat
    let q := num / den
    let r := num % den
    let m := if den < 2 * r ∨ (2 * r = den ∧ q % 2 = 1) then q + 1 else q
    let m1 := if m = 2 ^ 53 then 2 ^ 52 else m
    let e1 := if m = 2 ^ 53 then e + 1 else e
    if 971 < e1 then .inf neg else .fin neg m1 e1

namespace JSNumber

/-- Strict equality with the literal `0`: true of `+0` and `-0` only. -/
def isZero : JSNumber → Bool
  | .fin _ 0 _ => true
  | _ => false

/-- Unary minus. -/
def negate : JSNumber → JSNumber
  | .nan => .nan
  | .inf s => .inf (!s)
  | .fin s m e => .fin (!s) m e

/-- The integer `x * 2^1074` of a finite value. -/
def scaled (s : Bool) (m : Nat) (e : Int) : Int :=
  if s then -((m * 2 ^ (e + 1074).toNat : Nat) : Int) else ((m * 2 ^ (e + 1074).toNat : Nat) : Int)

/-- Number addition (`Number::add`). -/
def add : JSNumber → JSNumber → JSNumber
  | .nan, _ => .nan
  | _, .nan => .nan
  | .inf a, .inf b => if a = b then .inf a else .nan
  | .inf a, .fin _ _ _ => .inf a
  | .fin _ _ _, .inf b => .inf b
  | .fin s1 m1 e1, .fin s2 m2 e2 =>
    let t : Int := scaled s1 m1 e1 + scaled s2 m2 e2
    if t = 0 then .fin (s1 && s2) 0 (-1074)
    else roundToDouble (decide (t < 0)) t.natAbs (2 ^ 1074)

/-- Number subtraction (`Number::subtract`): `x - y` is `x + (-y)`. -/
def sub (x y : JSNumber) : JSNumber := add x (negate y)

/-- Number multiplication (`Number::multiply`). -/
def mul : JSNumber → JSNumber → JSNumber
  | .nan, _ => .nan
  | _, .nan => .nan
  | .inf a, .inf b => .inf (xor a b)
  | .inf a, .fin b m _ => if m = 0 then .nan else .inf (xor a b)
  | .fin a m _, .inf b => if m = 0 then .nan else .inf (xor a b)
  | .fin s1 m1 e1, .fin s2 m2 e2 =>
    roundToDouble (xor s1 s2) (m1 * m2 * 2 ^ (e1 + e2).toNat) (2 ^ (-(e1 + e2)).toNat)

/-- Number division (`Number::divide`). -/
def div : JSNumber → JSNumber → JSNumber
  | .nan, _ => .nan
  | _, .nan => .nan
  | .inf _, .inf _ => .nan
  | .inf a, .fin b _ _ => .inf (xor a b)
  | .fin a _ _, .inf b => .fin (xor a b) 0 (-1074)
  | .fin s1 m1 e1, .fin s2 m2 e2 =>
    if m2 = 0 then (if m1 = 0 then .nan else .inf (xor s1 s2))
    else roundToDouble (xor s1 s2) (m1 * 2 ^ (e1 - e2).toNat) (m2 * 2 ^ (e2 - e1).toNat)

instance : Add JSNumber := ⟨add⟩
instance : Sub JSNumber := ⟨sub⟩
instance : Mul JSNumber := ⟨mul⟩
instance : Div JSNumber := ⟨div⟩

/-- The Number value of a natural number. -/
def ofNat (n : Nat) : JSNumber := roundToDouble false n 1

end JSNumber

/-! ## Number to text and text to Number -/

/-- A run of `k` zero digits. -/
def zeros (k : Nat) : JSString := List.replicate k 48

/-- Whether `10^k ≤ n / d`. -/
def pow10Le (k : Int) (n d : Nat) : Bool := decide (d * 10 ^ k.toNat ≤ n * 10 ^ (-k).toNat)

/-- Search upwards from `k` for the first power of ten above `n / d` (helper with fuel). -/
def decimalExponentAux : Nat → Int → Nat → Nat → Int
  | 0, k, _, _ => k
  | fuel + 1, k, n, d => if pow10Le k n d then decimalExponentAux fuel (k + 1) n d else k

/-- The integer `k` with `10^(k-1) ≤ n / d < 10^k`, for positive `n` and `d`.
The search starts at a lower bound of `k` obtained from the binary lengths. -/
def decimalExponent (n d : Nat) : Int :=
  let l : Int := (bitLength n : Int) - (bitLength d : Int)
  let k0 : Int :=
    if 1 ≤ l then (((l - 1).toNat * 30102 / 100000 : Nat) : Int)
    else -((((1 - l).toNat * 30103 + 99999) / 100000 : Nat) : Int)
  decimalExponentAux 8 k0 n d

/-- The `s` and `n` of `Number::toString` for the positive finite value `x = nn / dd`:
the least number `k` of digits for which some `s` of `k` digits has `s * 10^(n-k)`
rounding to `x`; among those the `s` nearest to `x`, the even one on a tie
(helper with fuel, `k` counts up from its start value). -/
def shortestAux : Nat → Nat → JSNumber → Nat → Nat → Int → Nat × Int
  | 0, _, _, _, _, nx => (0, nx)
  | fuel + 1, k, x, nn, dd, nx =>
    let j : Int := nx - (k : Int)
    let a := nn * 10 ^ (-j).toNat
    let b := dd * 10 ^ j.toNat
    let lo := a / b
    let r := a % b
    let hi := lo + 1
    let okLo := decide (roundToDouble false (lo * 10 ^ j.toNat) (10 ^ (-j).toNat) = x)
    let okHi := decide (roundToDouble false (hi * 10 ^ j.toNat) (10 ^ (-j).toNat) = x)
    let pick : Nat → Nat × Int := fun s => if s = 10 ^ k then (10 ^ (k - 1), nx + 1) else (s, nx)
    if okLo && okHi then
      (if 2 * r < b then pick lo else if b < 2 * r then pick hi
       else if lo % 2 = 0 then pick lo else pick hi)
    else if okLo then pick lo
    else if okHi then pick hi
    else shortestAux fuel (k + 1) x nn dd nx

/-- The text of an exponent: its sign and its decimal digits. -/
def exponentText (e : Int) : JSString :=
  (if e < 0 then utf16 "-" else utf16 "+") ++ decimalDigits e.natAbs

/-- The text of `Number::toString` (radix 10) for digits `ds` and decimal point position `n`. -/
def formatDigits (ds : JSString) (n : Int) : JSString :=
  let k : Int := ds.length
  if k ≤ n ∧ n ≤ 21 then ds ++ zeros (n - k).toNat
  else if 0 < n ∧ n ≤ 21 then ds.take n.toNat ++ utf16 "." ++ ds.drop n.toNat
  else if -6 < n ∧ n ≤ 0 then utf16 "0." ++ zeros (-n).toNat ++ ds
  else if k = 1 then ds ++ utf16 "e" ++ exponentText (n - 1)
  else ds.take 1 ++ utf16 "." ++ ds.drop 1 ++ utf16 "e" ++ exponentText (n - 1)

/-- The text of `Number.prototype.toString()`, ECMA-262 `Number::toString` with radix 10. -/
def JSNumber.toString : JSNumber → JSString
  | .nan => utf16 "NaN"
  | .inf neg => if neg then utf16 "-Infinity" else utf16 "Infinity"
  | .fin neg m e =>
    if m = 0 then utf16 "0"
    else
      let nn := m * 2 ^ e.toNat
      let dd := 2 ^ (-e).toNat
      let sn := shortestAux 20 1 (.fin false m e) nn dd (decimalExponent nn dd)
      (if neg then utf16 "-" else []) ++ formatDigits (decimalDigits sn.1) sn.2

/-- The text of `Number.prototype.toPrecision(p)` for `1 ≤ p ≤ 100`. -/
def JSNumber.toPrecision (x : JSNumber) (p : Nat) : JSString :=
  match x with
  | .nan => x.toString
  | .inf _ => x.toString
  | .fin neg m e =>
    if m = 0 then (if p = 1 then utf16 "0" else utf16 "0." ++ zeros (p - 1))
    else
      let s : JSString := if neg then utf16 "-" else []
      let nn := m * 2 ^ e.toNat
      let dd := 2 ^ (-e).toNat
      let nx := decimalExponent nn dd
      let j : Int := nx - (p : Int)
      let a := nn * 10 ^ (-j).toNat
      let b := dd * 10 ^ j.toNat
      let n0 := (2 * a + b) / (2 * b)
      let n := if n0 = 10 ^ p then 10 ^ (p - 1) else n0
      let e10 : Int := if n0 = 10 ^ p then nx else nx - 1
      let ds := decimalDigits n
      if e10 < -6 ∨ (p : Int) ≤ e10 then
        s ++ (if p = 1 then ds else ds.take 1 ++ utf16 "." ++ ds.drop 1) ++ utf16 "e"
          ++ exponentText e10
      else if e10 = (p : Int) - 1 then s ++ ds
      else if 0 ≤ e10 then s ++ ds.take (e10 + 1).toNat ++ utf16 "." ++ ds.drop (e10 + 1).toNat
      else s ++ utf16 "0." ++ zeros (-(e10 + 1)).toNat ++ ds

/-- The exponent part `e`, `e+` or `e-` followed by digits at the head of `t`, when
there is one: its value. -/
def parseExponent (t : JSString) : Int :=
  match t with
  | c :: rest =>
    if c = code 'e' ∨ c = code 'E' then
      match rest with
      | [] => 0
      | d :: rest1 =>
        if d = code '+' then
          (if (rest1.takeWhile isDigit).isEmpty then 0 else (digitsValue (rest1.takeWhile isDigit) : Int))
        else if d = code '-' then
          (if (rest1.takeWhile isDigit).isEmpty then 0 else -(digitsValue (rest1.takeWhile isDigit) : Int))
        else (digitsValue (rest.takeWhile isDigit) : Int)
    else 0
  | [] => 0

/-- The value of the longest `StrUnsignedDecimalLiteral` at the head of `t`, with sign `neg`;
`NaN` when no initial segment of `t` is one. -/
def parseUnsigned (neg : Bool) (t : JSString) : JSNumber :=
  if startsWith t (utf16 "Infinity") then .inf neg
  else
    let intDigits := t.takeWhile isDigit
    let t1 := t.dropWhile isDigit
    let hasPoint := startsWith t1 (utf16 ".")
    let fracDigits := if hasPoint then (t1.drop 1).takeWhile isDigit else []
    let t2 := if hasPoint then (t1.drop 1).dropWhile isDigit else t1
    if intDigits.isEmpty && fracDigits.isEmpty then .nan
    else
      let ex : Int := parseExponent t2 - (fracDigits.length : Int)
      let mant := digitsValue (intDigits ++ fracDigits)
      roundToDouble neg (mant * 10 ^ ex.toNat) (10 ^ (-ex).toNat)

/-- The global function `parseFloat` applied to a string: leading white space is
skipped, the longest initial segment that is a `StrDecimalLiteral` is read and
rounded to the nearest Number value; `NaN` when there is none. -/
def parseFloat (s : JSString) : JSNumber :=
  match s.dropWhile isWhiteSpace with
  | [] => .nan
  | c :: rest =>
    if c = code '+' then parseUnsigned false rest
    else if c = code '-' then parseUnsigned true rest
    else parseUnsigned false (c :: rest)

/-! ## Values -/

/-- The JavaScript values the script computes with: `null`, a Number, a string. -/
inductive JSValue
  | null
  | num (x : JSNumber)
  | str (s : JSString)
  deriving DecidableEq, Repr

/-- The text a DOM node shows after `node.textContent = v`: `null` gives the
empty text, a Number its `toString()`. -/
def JSValue.textContent : JSValue → JSString
  | .null => []
  | .num x => x.toString
  | .str s => s

/-- The method call `v.toString()`: `none` is the `TypeError` thrown on `null`. -/
def JSValue.toStringMethod : JSValue → Option JSString
  | .null => none
  | .num x => some x.toString
  | .str s => some s

/-- The marker `divide` returns for a zero divisor. -/
def errorMarker : JSValue := .str (utf16 "ERROR")

/-- The text `updateDisplay` shows for the marker. -/
def errorText : JSString := utf16 "Nice try 😏"

/-! ## Basic math functions (script.js, lines 5-22) -/

/-- Source function `add`. -/
def add (a b : JSNumber) : JSNumber := a + b

/-- Source function `subtract`. -/
def subtract (a b : JSNumber) : JSNumber := a - b

/-- Source function `multiply`. -/
def multiply (a b : JSNumber) : JSNumber := a * b

/-- Source function `divide`: the marker when `b === 0`, else the quotient. -/
def divide (a b : JSNumber) : JSValue :=
  if b.isZero then errorMarker else .num (a / b)

/-! ## The operate function (script.js, lines 26-42) -/

/-- Source function `operate`. -/
def operate (operator a b : JSString) : JSValue :=
  let a := parseFloat a
  let b := parseFloat b
  if operator = utf16 "+" then .num (add a b)
  else if operator = utf16 "-" then .num (subtract a b)
  else if operator = utf16 "*" then .num (multiply a b)
  else if operator = utf16 "/" then divide a b
  else .null

/-! ## Calculator state (script.js, lines 46-55) -/

/-- The five module variables, and the text of the two display nodes. -/
structure State where
  /-- Variable `firstNumber`. -/
  firstNumber : JSString
  /-- Variable `secondNumber`. -/
  secondNumber : JSString
  /-- Variable `currentOperator`: `none` is `null`. -/
  currentOperator : Option JSString
  /-- Variable `shouldResetDisplay`. -/
  shouldResetDisplay : Bool
  /-- Variable `lastResult`. -/
  lastResult : JSValue
  /-- The text of `currentOperandDisplay` (primary display). -/
  currentOperandDisplay : JSString
  /-- The text of `previousOperandDisplay` (secondary display). -/
  previousOperandDisplay : JSString
  deriving DecidableEq, Repr

/-- Truthiness of a string: it is not empty. -/
def truthy (s : JSString) : Bool := !s.isEmpty

/-- Truthiness of `currentOperator`: not `null` and not the empty string. -/
def truthyOperator : Option JSString → Bool
  | none => false
  | some op => truthy op

/-- Modelled from the spec: the text the page (index.html, not under src) gives
the two display nodes at load; the spec states a cleared phase with
`displayValue = "0"`.  The five variables are initialised by script.js. -/
def initialState : State :=
  { firstNumber := [], secondNumber := [], currentOperator := none,
    shouldResetDisplay := false, lastResult := .null,
    currentOperandDisplay := utf16 "0", previousOperandDisplay := [] }

/-! ## Display functions (script.js, lines 66-103) -/

/-- Source function `updateDisplay`. -/
def updateDisplay (value : JSValue) (s : State) : State :=
  if value = errorMarker then { s with currentOperandDisplay := errorText }
  else
    let value :=
      match value with
      | .num x =>
        if x.toString.length > 12 then JSValue.num (parseFloat (x.toPrecision 10)) else .num x
      | v => v
    { s with currentOperandDisplay := value.textContent }

/-- Source function `getOperatorSymbol`.  The lookup `symbols[op]` is given for
the four own keys of the table and for keys the table does not know; a key
that names a member inherited from `Object.prototype` (such as `toString`) is
outside this embedding, and the theorems take `op` among the four symbols
wherever the result matters. -/
def getOperatorSymbol (op : JSString) : JSString :=
  if op = utf16 "+" then utf16 "+"
  else if op = utf16 "-" then utf16 "−"
  else if op = utf16 "*" then utf16 "×"
  else if op = utf16 "/" then utf16 "÷"
  else op

/-- Source function `updatePreviousDisplay`. -/
def updatePreviousDisplay (s : State) : State :=
  if truthy s.firstNumber && truthyOperator s.currentOperator then
    { s with previousOperandDisplay :=
        s.firstNumber ++ utf16 " " ++ getOperatorSymbol (s.currentOperator.getD []) }
  else { s with previousOperandDisplay := [] }

/-! ## Input handlers (script.js, lines 107-219) -/

/-- Source function `clearAll`. -/
def clearAll (s : State) : State :=
  let s := { s with firstNumber := [], secondNumber := [], currentOperator := none,
                    shouldResetDisplay := false, lastResult := .null }
  let s := updateDisplay (.str (utf16 "0")) s
  { s with previousOperandDisplay := [] }

/-- Source function `inputDigit`. -/
def inputDigit (digit : JSString) (s : State) : State :=
  if s.shouldResetDisplay || s.currentOperandDisplay = utf16 "0" then
    { s with currentOperandDisplay := digit, shouldResetDisplay := false }
  else if s.currentOperandDisplay.length ≥ 12 then s
  else { s with currentOperandDisplay := s.currentOperandDisplay ++ digit }

/-- Source function `inputDecimal`. -/
def inputDecimal (s : State) : State :=
  if s.shouldResetDisplay then
    { s with currentOperandDisplay := utf16 "0.", shouldResetDisplay := false }
  else if includes s.currentOperandDisplay (code '.') then s
  else { s with currentOperandDisplay := s.currentOperandDisplay ++ utf16 "." }

/-- Source function `inputOperator`.  When `operate` returns `null`, the call
`result.toString()` throws and the handler stops there: the state keeps what
was assigned before. -/
def inputOperator (operator : JSString) (s : State) : State :=
  let currentValue := s.currentOperandDisplay
  if truthy s.firstNumber && truthyOperator s.currentOperator && !s.shouldResetDisplay then
    let s := { s with secondNumber := currentValue }
    let result := operate (s.currentOperator.getD []) s.firstNumber s.secondNumber
    if result = errorMarker then clearAll (updateDisplay result s)
    else
      let s := updateDisplay result s
      match result.toStringMethod with
      | none => s
      | some text =>
        updatePreviousDisplay
          { s with firstNumber := text, currentOperator := some operator,
                   shouldResetDisplay := true }
  else
    updatePreviousDisplay
      { s with firstNumber := currentValue, currentOperator := some operator,
               shouldResetDisplay := true }

/-- Source function `calculate`.  When `operate` returns `null`, the call
`result.toString()` throws and the handler stops there: the state keeps what
was assigned before. -/
def calculate (s : State) : State :=
  if !truthyOperator s.currentOperator || !truthy s.firstNumber then s
  else
    let s := { s with secondNumber := s.currentOperandDisplay }
    let result := operate (s.currentOperator.getD []) s.firstNumber s.secondNumber
    if result = errorMarker then clearAll (updateDisplay result s)
    else
      let s := { s with previousOperandDisplay :=
                   s.firstNumber ++ utf16 " " ++ getOperatorSymbol (s.currentOperator.getD [])
                     ++ utf16 " " ++ s.secondNumber ++ utf16 " =" }
      let s := updateDisplay result s
      let s := { s with lastResult := result }
      match result.toStringMethod with
      | none => s
      | some text =>
        { s with firstNumber := text, currentOperator := none, secondNumber := [],
                 shouldResetDisplay := true }

/-- Source function `backspace`. -/
def backspace (s : State) : State :=
  if s.shouldResetDisplay then s
  else
    let current := s.currentOperandDisplay
    if current.length = 1 || (current.length = 2 && startsWith current (utf16 "-")) then
      { s with currentOperandDisplay := utf16 "0" }
    else { s with currentOperandDisplay := current.dropLast }

/-- Source function `percent`. -/
def percent (s : State) : State :=
  let current := parseFloat s.currentOperandDisplay
  let result := current / JSNumber.ofNat 100
  updateDisplay (.num result) s

/-! ## Event listeners (script.js, lines 228-305) -/

/-- An input event: a click on a button or the key press that calls the same handler. -/
inductive Event
  | digit (d : JSString)
  | decimal
  | operator (op : JSString)
  | equals
  | clear
  | backspace
  | percent
  deriving DecidableEq, Repr

/-- The handler the listeners call for an event. -/
def step (s : State) : Event → State
  | .digit d => inputDigit d s
  | .decimal => inputDecimal s
  | .operator op => inputOperator op s
  | .equals => calculate s
  | .clear => clearAll s
  | .backspace => backspace s
  | .percent => percent s

/-- The state after a sequence of events. -/
def run (s : State) (events : List Event) : State := events.foldl step s

/-- The digit keys: the one-unit strings `0` .. `9`. -/
def isDigitKey (d : JSString) : Bool :=
  match d with
  | [c] => isDigit c
  | _ => false

/-- The operator keys: `+`, `-`, `*`, `/`. -/
def isOperatorKey (op : JSString) : Bool :=
  decide (op = utf16 "+" ∨ op = utf16 "-" ∨ op = utf16 "*" ∨ op = utf16 "/")

/-- The events of the external interface: digits `0` .. `9`, the four operators,
and the five keys without an argument. -/
def Event.valid : Event → Bool
  | .digit d => isDigitKey d
  | .operator op => isOperatorKey op
  | _ => true

/-- The states reached from the initial state by valid events. -/
def Reachable (s : State) : Prop :=
  ∃ events : List Event, (∀ e ∈ events, e.valid = true) ∧ run initialState events = s

/-- The text `updateDisplay(x)` leaves on the primary display for a Number `x`
(script.js, lines 76-83): `x` itself, or `x` rounded to 10 significant digits
when the text of `x` has more than 12 code units. -/
def roundedText (x : JSNumber) : JSString :=
  if x.toString.length > 12 then (parseFloat (x.toPrecision 10)).toString else x.toString

/-- The number of decimal points (`.`) in a text. -/
def dotCount (t : JSString) : Nat := t.count (code '.')

/-- The events that edit the number on the display: a digit key, the decimal
point, backspace. -/
def Event.editing : Event → Bool
  | .digit d => isDigitKey d
  | .decimal => true
  | .backspace => true
  | _ => false

/-- The invariant of the reachable states: the display is not empty, and a
pending operator is one of the four operator keys and comes with a first
operand that is not empty. -/
def wellFormed (s : State) : Prop :=
  s.currentOperandDisplay ≠ [] ∧
  match s.currentOperator with
  | none => True
  | some op => isOperatorKey op = true ∧ s.firstNumber ≠ []

/-- The 377 key presses 1.7976931348, then 28 times `*` 100000000000, then `=`. -/
def overflowKeys : List Event :=
  [.digit (utf16 "1"), .decimal, .digit (utf16 "7"), .digit (utf16 "9"), .digit (utf16 "7"),
   .digit (utf16 "6"), .digit (utf16 "9"), .digit (utf16 "3"), .digit (utf16 "1"),
   .digit (utf16 "3"), .digit (utf16 "4"), .digit (utf16 "8")]
  ++ (List.replicate 28
      ([Event.operator (utf16 "*"), .digit (utf16 "1")]
        ++ List.replicate 11 (Event.digit (utf16 "0")))).flatten
  ++ [.equals]

/-! ## Theorems -/

/-! ### The literals of the script as code units -/

theorem utf16_plus : utf16 "+" = [43] := by decide
theorem utf16_minus : utf16 "-" = [45] := by decide
theorem utf16_times : utf16 "*" = [42] := by decide
theorem utf16_slash : utf16 "/" = [47] := by decide
theorem utf16_zero : utf16 "0" = [48] := by decide
theorem utf16_point : utf16 "." = [46] := by decide
theorem utf16_zero_point : utf16 "0." = [48, 46] := by decide
theorem utf16_error : utf16 "ERROR" = [69, 82, 82, 79, 82] := by decide
theorem errorText_eq : errorText = [78, 105, 99, 101, 32, 116, 114, 121, 32, 55357, 56847] := by
  decide

/-! ### Basic facts about the handlers -/

/-- A string is truthy exactly when it is not empty. -/
theorem truthy_iff (t : JSString) : truthy t = true ↔ t ≠ [] := by
  cases t <;> simp [truthy]

/-- The marker is shown as the error text. -/
theorem updateDisplay_marker (s : State) :
    updateDisplay errorMarker s = { s with currentOperandDisplay := errorText } := by
  simp [updateDisplay]

/-- A Number is shown as its rounded text. -/
theorem updateDisplay_num (x : JSNumber) (s : State) :
    updateDisplay (.num x) s = { s with currentOperandDisplay := roundedText x } := by
  unfold updateDisplay roundedText
  simp only [errorMarker, reduceCtorEq, if_false]
  split <;> rfl

/-- The value `null` is shown as the empty text. -/
theorem updateDisplay_null (s : State) :
    updateDisplay .null s = { s with currentOperandDisplay := [] } := by
  simp [updateDisplay, errorMarker, JSValue.textContent]

/-- The result of `clearAll` is the initial state, whatever the argument. -/
theorem clearAll_eq_initialState (s : State) : clearAll s = initialState := by
  simp [clearAll, updateDisplay, errorMarker, utf16_zero, utf16_error, JSValue.textContent,
    initialState]

/-- The marker comes out of `operate` exactly for `/` with a divisor that parses to zero. -/
theorem operate_eq_marker_iff (op a b : JSString) :
    operate op a b = errorMarker ↔ op = utf16 "/" ∧ (parseFloat b).isZero = true := by
  unfold operate
  simp only [utf16_plus, utf16_minus, utf16_times, utf16_slash]
  by_cases h1 : op = [43]
  · subst h1; simp [errorMarker]
  · by_cases h2 : op = [45]
    · subst h2; simp [errorMarker]
    · by_cases h3 : op = [42]
      · subst h3; simp [errorMarker]
      · by_cases h4 : op = [47]
        · subst h4
          simp only [h1, h2, h3, if_false, if_true, true_and]
          unfold divide
          cases (parseFloat b).isZero <;> simp [errorMarker]
        · simp [h1, h2, h3, h4, errorMarker]

/-- The equals handler on a pending calculation that evaluates to the marker. -/
theorem calculate_of_marker (s : State) (op0 : JSString)
    (hf : s.firstNumber ≠ []) (hop : s.currentOperator = some op0) (h0 : op0 ≠ [])
    (hr : operate op0 s.firstNumber s.currentOperandDisplay = errorMarker) :
    calculate s = initialState := by
  have h1 : truthy s.firstNumber = true := (truthy_iff _).2 hf
  have h2 : truthy op0 = true := (truthy_iff _).2 h0
  simp [calculate, hop, truthyOperator, h1, h2, hr, clearAll_eq_initialState]

/-- The operator handler on a pending calculation that evaluates to the marker. -/
theorem inputOperator_of_marker (s : State) (op op0 : JSString)
    (hf : s.firstNumber ≠ []) (hop : s.currentOperator = some op0) (h0 : op0 ≠ [])
    (hflag : s.shouldResetDisplay = false)
    (hr : operate op0 s.firstNumber s.currentOperandDisplay = errorMarker) :
    inputOperator op s = initialState := by
  have h1 : truthy s.firstNumber = true := (truthy_iff _).2 hf
  have h2 : truthy op0 = true := (truthy_iff _).2 h0
  simp [inputOperator, hop, truthyOperator, h1, h2, hflag, hr, clearAll_eq_initialState]

/-- The equals handler on a pending calculation that evaluates to a Number. -/
theorem calculate_of_num (s : State) (op0 : JSString) (r : JSNumber)
    (hf : s.firstNumber ≠ []) (hop : s.currentOperator = some op0) (h0 : op0 ≠ [])
    (hr : operate op0 s.firstNumber s.currentOperandDisplay = .num r) :
    calculate s =
      { firstNumber := r.toString, secondNumber := [], currentOperator := none,
        shouldResetDisplay := true, lastResult := .num r,
        currentOperandDisplay := roundedText r,
        previousOperandDisplay :=
          s.firstNumber ++ utf16 " " ++ getOperatorSymbol op0 ++ utf16 " "
            ++ s.currentOperandDisplay ++ utf16 " =" } := by
  have h1 : truthy s.firstNumber = true := (truthy_iff _).2 hf
  have h2 : truthy op0 = true := (truthy_iff _).2 h0
  simp [calculate, hop, truthyOperator, h1, h2, hr, errorMarker, updateDisplay_num,
    JSValue.toStringMethod]

/-- The operator handler on a pending calculation that evaluates to a Number. -/
theorem inputOperator_of_num (s : State) (op op0 : JSString) (r : JSNumber)
    (hf : s.firstNumber ≠ []) (hop : s.currentOperator = some op0) (h0 : op0 ≠ [])
    (hflag : s.shouldResetDisplay = false)
    (hr : operate op0 s.firstNumber s.currentOperandDisplay = .num r) :
    inputOperator op s =
      updatePreviousDisplay
        { s with firstNumber := r.toString, secondNumber := s.currentOperandDisplay,
                 currentOperator := some op, shouldResetDisplay := true,
                 currentOperandDisplay := roundedText r } := by
  have h1 : truthy s.firstNumber = true := (truthy_iff _).2 hf
  have h2 : truthy op0 = true := (truthy_iff _).2 h0
  simp [inputOperator, hop, truthyOperator, h1, h2, hflag, hr, errorMarker, updateDisplay_num,
    JSValue.toStringMethod]

/-- The secondary display is the only field `updatePreviousDisplay` assigns. -/
theorem updatePreviousDisplay_fields (s : State) :
    (updatePreviousDisplay s).firstNumber = s.firstNumber ∧
    (updatePreviousDisplay s).secondNumber = s.secondNumber ∧
    (updatePreviousDisplay s).currentOperator = s.currentOperator ∧
    (updatePreviousDisplay s).shouldResetDisplay = s.shouldResetDisplay ∧
    (updatePreviousDisplay s).lastResult = s.lastResult ∧
    (updatePreviousDisplay s).currentOperandDisplay = s.currentOperandDisplay := by
  unfold updatePreviousDisplay
  split <;> simp

/-! ### The claims -/

/-- C1: `divide(a, b)` is the marker `'ERROR'` when `b === 0`, whatever `a` is, and
is the quotient `a / b`, never the marker, when `b` is not zero. -/
theorem divide_zero_marker_else_quotient (a b : JSNumber) :
    (b.isZero = true → divide a b = errorMarker) ∧
    (b.isZero = false → divide a b = .num (a / b) ∧ divide a b ≠ errorMarker) := by
  constructor
  · intro h
    simp [divide, h]
  · intro h
    simp [divide, h, errorMarker]

/-- C2: `operate(op, a, b)` parses both operand texts and returns `add`, `subtract`,
`multiply` or `divide` of the parsed values for `+`, `-`, `*`, `/`, and `null` for
every other operator; so it returns the marker exactly when `op` is `/` and `b`
parses to zero. -/
theorem operate_dispatch (op a b : JSString) :
    (op = utf16 "+" → operate op a b = .num (add (parseFloat a) (parseFloat b))) ∧
    (op = utf16 "-" → operate op a b = .num (subtract (parseFloat a) (parseFloat b))) ∧
    (op = utf16 "*" → operate op a b = .num (multiply (parseFloat a) (parseFloat b))) ∧
    (op = utf16 "/" → operate op a b = divide (parseFloat a) (parseFloat b)) ∧
    (op ≠ utf16 "+" → op ≠ utf16 "-" → op ≠ utf16 "*" → op ≠ utf16 "/" →
      operate op a b = .null) ∧
    (operate op a b = errorMarker ↔ op = utf16 "/" ∧ (parseFloat b).isZero = true) := by
  refine ⟨?_, ?_, ?_, ?_, ?_, operate_eq_marker_iff op a b⟩
  · intro h; subst h; simp [operate]
  · intro h; subst h; simp [operate, utf16_plus, utf16_minus]
  · intro h; subst h; simp [operate, utf16_plus, utf16_minus, utf16_times]
  · intro h; subst h; simp [operate, utf16_plus, utf16_minus, utf16_times, utf16_slash]
  · intro h1 h2 h3 h4; simp [operate, h1, h2, h3, h4]

/-- C3 (as the code behaves): after 8, /, 0, = from the initial state the primary
display shows `0`, not the error text, and likewise after 8, /, 0, +: `clearAll`
runs right after `updateDisplay('ERROR')` and writes `0` over it. -/
theorem division_by_zero_display_shows_zero :
    (run initialState [.digit (utf16 "8"), .operator (utf16 "/"), .digit (utf16 "0"),
        .equals]).currentOperandDisplay = utf16 "0" ∧
    (run initialState [.digit (utf16 "8"), .operator (utf16 "/"), .digit (utf16 "0"),
        .operator (utf16 "+")]).currentOperandDisplay = utf16 "0" ∧
    utf16 "0" ≠ errorText := by
  decide!

/-- C4: when equals, or an operator that chains, evaluates a division by zero, the
state is exactly the state `clearAll` produces, no operator is pending, and a
following `inputDigit(d)` shows exactly `d`. -/
theorem division_by_zero_resets (s : State) (op : JSString)
    (hf : s.firstNumber ≠ [])
    (hop : s.currentOperator = some (utf16 "/"))
    (hz : (parseFloat s.currentOperandDisplay).isZero = true) :
    (calculate s = clearAll s ∧ (calculate s).currentOperator = none ∧
      ∀ d : JSString, (inputDigit d (calculate s)).currentOperandDisplay = d) ∧
    (s.shouldResetDisplay = false →
      inputOperator op s = clearAll s ∧ (inputOperator op s).currentOperator = none ∧
      ∀ d : JSString, (inputDigit d (inputOperator op s)).currentOperandDisplay = d) := by
  have hr : operate (utf16 "/") s.firstNumber s.currentOperandDisplay = errorMarker :=
    (operate_eq_marker_iff _ _ _).2 ⟨rfl, hz⟩
  have h0 : utf16 "/" ≠ [] := by decide
  have hd : ∀ d : JSString, (inputDigit d initialState).currentOperandDisplay = d := by
    intro d; simp [inputDigit, initialState]
  constructor
  · rw [calculate_of_marker s _ hf hop h0 hr, clearAll_eq_initialState]
    exact ⟨rfl, rfl, hd⟩
  · intro hflag
    rw [inputOperator_of_marker s op _ hf hop h0 hflag hr, clearAll_eq_initialState]
    exact ⟨rfl, rfl, hd⟩

/-- Witness for C4: the state after 8, /, 0. -/
theorem division_by_zero_resets_witness :
    calculate (run initialState [.digit (utf16 "8"), .operator (utf16 "/"), .digit (utf16 "0")])
      = initialState ∧
    inputOperator (utf16 "+")
      (run initialState [.digit (utf16 "8"), .operator (utf16 "/"), .digit (utf16 "0")])
      = initialState := by
  have h := division_by_zero_resets
    (run initialState [.digit (utf16 "8"), .operator (utf16 "/"), .digit (utf16 "0")])
    (utf16 "+") (by decide!) (by decide!) (by decide!)
  exact ⟨h.1.1.trans (clearAll_eq_initialState _),
    (h.2 (by decide!)).1.trans (clearAll_eq_initialState _)⟩

/-- C5: operator chaining.  With a first operand, a pending operator `op0` and the
reset flag unset, when `operate(op0, first, display)` is a Number `r`,
`inputOperator(op)` shows `r` (as `updateDisplay` renders it), stores the text of `r`
as first operand, records `op` and sets the reset flag; in every other state it
takes the display as first operand.  So 3, +, 4, +, 5, = shows 7 after the second
`+` and 12 at the end. -/
theorem inputOperator_chaining (s : State) (op : JSString) :
    (∀ (op0 : JSString) (r : JSNumber),
      s.firstNumber ≠ [] → s.currentOperator = some op0 → op0 ≠ [] →
      s.shouldResetDisplay = false →
      operate op0 s.firstNumber s.currentOperandDisplay = .num r →
        (inputOperator op s).currentOperandDisplay = roundedText r ∧
        (inputOperator op s).firstNumber = r.toString ∧
        (inputOperator op s).currentOperator = some op ∧
        (inputOperator op s).shouldResetDisplay = true) ∧
    ((s.firstNumber = [] ∨ truthyOperator s.currentOperator = false ∨
        s.shouldResetDisplay = true) →
        (inputOperator op s).firstNumber = s.currentOperandDisplay ∧
        (inputOperator op s).currentOperandDisplay = s.currentOperandDisplay ∧
        (inputOperator op s).currentOperator = some op ∧
        (inputOperator op s).shouldResetDisplay = true) ∧
    (run initialState [.digit (utf16 "3"), .operator (utf16 "+"), .digit (utf16 "4"),
        .operator (utf16 "+")]).currentOperandDisplay = utf16 "7" ∧
    (run initialState [.digit (utf16 "3"), .operator (utf16 "+"), .digit (utf16 "4"),
        .operator (utf16 "+"), .digit (utf16 "5"), .equals]).currentOperandDisplay
      = utf16 "12" := by
  refine ⟨?_, ?_, by decide!, by decide!⟩
  · intro op0 r hf hop h0 hflag hr
    rw [inputOperator_of_num s op op0 r hf hop h0 hflag hr]
    obtain ⟨h1, -, h3, h4, -, h6⟩ := updatePreviousDisplay_fields
      { s with firstNumber := r.toString, secondNumber := s.currentOperandDisplay,
               currentOperator := some op, shouldResetDisplay := true,
               currentOperandDisplay := roundedText r }
    exact ⟨h6, h1, h3, h4⟩
  · intro h
    have hc : (truthy s.firstNumber && truthyOperator s.currentOperator &&
        !s.shouldResetDisplay) = false := by
      rcases h with h | h | h
      · simp [h, truthy]
      · simp [h]
      · simp [h]
    unfold inputOperator
    simp only [hc]
    obtain ⟨h1, -, h3, h4, -, h6⟩ := updatePreviousDisplay_fields
      { s with firstNumber := s.currentOperandDisplay, currentOperator := some op,
               shouldResetDisplay := true }
    exact ⟨h1, h6, h3, h4⟩

/-- Witness for C5: the second `+` of 3, +, 4, + evaluates 3 + 4. -/
theorem inputOperator_chaining_witness :
    (inputOperator (utf16 "+")
      (run initialState [.digit (utf16 "3"), .operator (utf16 "+"), .digit (utf16 "4")])
      ).firstNumber = utf16 "7" := by
  have h := (inputOperator_chaining
    (run initialState [.digit (utf16 "3"), .operator (utf16 "+"), .digit (utf16 "4")])
    (utf16 "+")).1 (utf16 "+") (JSNumber.ofNat 7)
    (by decide!) (by decide!) (by decide!) (by decide!) (by decide!)
  exact h.2.1.trans (by decide!)

/-- The symbols of the four operator keys: `+` is U+002B, `-` gives the minus sign
U+2212, `*` the multiplication sign U+00D7, `/` the division sign U+00F7. -/
theorem getOperatorSymbol_keys :
    getOperatorSymbol (utf16 "+") = [0x2B] ∧ getOperatorSymbol (utf16 "-") = [0x2212] ∧
    getOperatorSymbol (utf16 "*") = [0xD7] ∧ getOperatorSymbol (utf16 "/") = [0xF7] := by
  decide

/-- C6: with a first operand `f`, a pending operator among `+ - * /` and a display
`t` for which `operate` gives a Number `r`, equals sets the secondary display to
`f <symbol> t =`, where the symbol is `+` (U+002B) for `+`, the minus sign U+2212
for `-`, the multiplication sign U+00D7 for `*` and the division sign U+00F7 for
`/`, each between single spaces (U+0020), the text ending in a space and `=`
(U+003D); it shows `r` rounded per `updateDisplay`, stores `r` as `lastResult`
and its text as first operand, clears the pending operator and the second
operand, and sets the reset flag. -/
theorem calculate_success (s : State) (op0 : JSString) (r : JSNumber)
    (hf : s.firstNumber ≠ [])
    (hop : s.currentOperator = some op0)
    (hkey : isOperatorKey op0 = true)
    (hr : operate op0 s.firstNumber s.currentOperandDisplay = .num r) :
    (calculate s).previousOperandDisplay =
        s.firstNumber ++ utf16 " " ++ getOperatorSymbol op0 ++ utf16 " "
          ++ s.currentOperandDisplay ++ utf16 " =" ∧
    (op0 = utf16 "+" → (calculate s).previousOperandDisplay =
        s.firstNumber ++ [0x20, 0x2B, 0x20] ++ s.currentOperandDisplay ++ [0x20, 0x3D]) ∧
    (op0 = utf16 "-" → (calculate s).previousOperandDisplay =
        s.firstNumber ++ [0x20, 0x2212, 0x20] ++ s.currentOperandDisplay ++ [0x20, 0x3D]) ∧
    (op0 = utf16 "*" → (calculate s).previousOperandDisplay =
        s.firstNumber ++ [0x20, 0xD7, 0x20] ++ s.currentOperandDisplay ++ [0x20, 0x3D]) ∧
    (op0 = utf16 "/" → (calculate s).previousOperandDisplay =
        s.firstNumber ++ [0x20, 0xF7, 0x20] ++ s.currentOperandDisplay ++ [0x20, 0x3D]) ∧
    (calculate s).currentOperandDisplay = roundedText r ∧
    (calculate s).lastResult = .num r ∧
    (calculate s).firstNumber = r.toString ∧
    (calculate s).currentOperator = none ∧
    (calculate s).secondNumber = [] ∧
    (calculate s).shouldResetDisplay = true := by
  have h0 : op0 ≠ [] := by
    intro h; subst h; revert hkey; decide
  have hsp : utf16 " " = [0x20] := by decide
  have heq : utf16 " =" = [0x20, 0x3D] := by decide
  obtain ⟨k1, k2, k3, k4⟩ := getOperatorSymbol_keys
  rw [calculate_of_num s op0 r hf hop h0 hr]
  refine ⟨rfl, ?_, ?_, ?_, ?_, rfl, rfl, rfl, rfl, rfl, rfl⟩
  · intro h; subst h; simp [hsp, heq, k1]
  · intro h; subst h; simp [hsp, heq, k2]
  · intro h; subst h; simp [hsp, heq, k3]
  · intro h; subst h; simp [hsp, heq, k4]

/-- Witness for C6: equals after 3, +, 4, after 3, -, 4, after 3, *, 4 and after
8, /, 2; the secondary display is given in code units. -/
theorem calculate_success_witness :
    ((calculate (run initialState [.digit (utf16 "3"), .operator (utf16 "+"),
        .digit (utf16 "4")])).previousOperandDisplay
        = [0x33, 0x20, 0x2B, 0x20, 0x34, 0x20, 0x3D] ∧
      (calculate (run initialState [.digit (utf16 "3"), .operator (utf16 "+"),
        .digit (utf16 "4")])).currentOperandDisplay = utf16 "7") ∧
    ((calculate (run initialState [.digit (utf16 "3"), .operator (utf16 "-"),
        .digit (utf16 "4")])).previousOperandDisplay
        = [0x33, 0x20, 0x2212, 0x20, 0x34, 0x20, 0x3D] ∧
      (calculate (run initialState [.digit (utf16 "3"), .operator (utf16 "-"),
        .digit (utf16 "4")])).currentOperandDisplay = utf16 "-1") ∧
    ((calculate (run initialState [.digit (utf16 "3"), .operator (utf16 "*"),
        .digit (utf16 "4")])).previousOperandDisplay
        = [0x33, 0x20, 0xD7, 0x20, 0x34, 0x20, 0x3D] ∧
      (calculate (run initialState [.digit (utf16 "3"), .operator (utf16 "*"),
        .digit (utf16 "4")])).currentOperandDisplay = utf16 "12") ∧
    ((calculate (run initialState [.digit (utf16 "8"), .operator (utf16 "/"),
        .digit (utf16 "2")])).previousOperandDisplay
        = [0x38, 0x20, 0xF7, 0x20, 0x32, 0x20, 0x3D] ∧
      (calculate (run initialState [.digit (utf16 "8"), .operator (utf16 "/"),
        .digit (utf16 "2")])).currentOperandDisplay = utf16 "4") := by
  have hp := calculate_success
    (run initialState [.digit (utf16 "3"), .operator (utf16 "+"), .digit (utf16 "4")])
    (utf16 "+") (JSNumber.ofNat 7) (by decide!) (by decide!) (by decide!) (by decide!)
  have hm := calculate_success
    (run initialState [.digit (utf16 "3"), .operator (utf16 "-"), .digit (utf16 "4")])
    (utf16 "-") (JSNumber.negate (JSNumber.ofNat 1))
    (by decide!) (by decide!) (by decide!) (by decide!)
  have ht := calculate_success
    (run initialState [.digit (utf16 "3"), .operator (utf16 "*"), .digit (utf16 "4")])
    (utf16 "*") (JSNumber.ofNat 12) (by decide!) (by decide!) (by decide!) (by decide!)
  have hd := calculate_success
    (run initialState [.digit (utf16 "8"), .operator (utf16 "/"), .digit (utf16 "2")])
    (utf16 "/") (JSNumber.ofNat 4) (by decide!) (by decide!) (by decide!) (by decide!)
  exact ⟨⟨(hp.2.1 rfl).trans (by decide!), hp.2.2.2.2.2.1.trans (by decide!)⟩,
    ⟨(hm.2.2.1 rfl).trans (by decide!), hm.2.2.2.2.2.1.trans (by decide!)⟩,
    ⟨(ht.2.2.2.1 rfl).trans (by decide!), ht.2.2.2.2.2.1.trans (by decide!)⟩,
    ⟨(hd.2.2.2.2.1 rfl).trans (by decide!), hd.2.2.2.2.2.1.trans (by decide!)⟩⟩

/-- C7: with no pending operator, or with an empty first operand, equals changes
nothing: every variable and both display texts stay as they are. -/
theorem calculate_noop (s : State)
    (h : truthyOperator s.currentOperator = false ∨ s.firstNumber = []) :
    calculate s = s := by
  unfold calculate
  rcases h with h | h
  · simp [h]
  · simp [h, truthy]

/-- Witness for C7: equals in the initial state, and after a digit. -/
theorem calculate_noop_witness :
    calculate initialState = initialState ∧
    calculate (run initialState [.digit (utf16 "5")]) = run initialState [.digit (utf16 "5")] :=
  ⟨calculate_noop initialState (Or.inl (by decide)),
   calculate_noop (run initialState [.digit (utf16 "5")]) (Or.inr (by decide))⟩

/-- C8: `clearAll` maps every state to the one initial state (primary display `0`,
secondary display empty, operands empty, no operator, flag unset, `lastResult`
null); so it is idempotent and its result does not depend on its argument. -/
theorem clearAll_canonical (s t : State) :
    clearAll s =
      { firstNumber := [], secondNumber := [], currentOperator := none,
        shouldResetDisplay := false, lastResult := .null,
        currentOperandDisplay := utf16 "0", previousOperandDisplay := [] } ∧
    clearAll s = initialState ∧
    clearAll (clearAll s) = clearAll s ∧
    clearAll s = clearAll t := by
  simp [clearAll_eq_initialState, initialState]

/-- C9: for a digit key `d`, a display of at most 12 code units stays at most 12
code units long after `inputDigit(d)`; and with 12 or more code units on the
display, the reset flag unset and a display other than `0`, `inputDigit(d)`
changes nothing. -/
theorem inputDigit_cap (s : State) (d : JSString) (hd : isDigitKey d = true) :
    (s.currentOperandDisplay.length ≤ 12 →
      (inputDigit d s).currentOperandDisplay.length ≤ 12) ∧
    (12 ≤ s.currentOperandDisplay.length → s.shouldResetDisplay = false →
      s.currentOperandDisplay ≠ utf16 "0" → inputDigit d s = s) := by
  have hlen : d.length = 1 := by
    match d, hd with
    | [c], _ => rfl
  constructor
  · intro hle
    unfold inputDigit
    split
    · simp [hlen]
    · split
      · exact hle
      · simp only [List.length_append, hlen]
        omega
  · intro hge hflag hne
    unfold inputDigit
    simp [hflag, hne, hge]

/-- Witness for C9: a thirteenth digit after twelve is ignored. -/
theorem inputDigit_cap_witness :
    inputDigit (utf16 "3") { initialState with currentOperandDisplay := utf16 "123456789012" }
      = { initialState with currentOperandDisplay := utf16 "123456789012" } :=
  (inputDigit_cap { initialState with currentOperandDisplay := utf16 "123456789012" }
    (utf16 "3") (by decide)).2 (by decide) (by decide) (by decide)

/-- C10 (as the code behaves): twelve digits and then the decimal point, all valid
events from the initial state, leave a primary display of 13 code units:
`inputDecimal` appends without the length test `inputDigit` makes.  A rounded
result can be as long: 0, -, 1, /, 3, = shows `-0.3333333333`. -/
theorem decimal_after_twelve_digits_exceeds_cap :
    Reachable (run initialState
      [.digit (utf16 "1"), .digit (utf16 "2"), .digit (utf16 "3"), .digit (utf16 "4"),
       .digit (utf16 "5"), .digit (utf16 "6"), .digit (utf16 "7"), .digit (utf16 "8"),
       .digit (utf16 "9"), .digit (utf16 "0"), .digit (utf16 "1"), .digit (utf16 "2"),
       .decimal]) ∧
    (run initialState
      [.digit (utf16 "1"), .digit (utf16 "2"), .digit (utf16 "3"), .digit (utf16 "4"),
       .digit (utf16 "5"), .digit (utf16 "6"), .digit (utf16 "7"), .digit (utf16 "8"),
       .digit (utf16 "9"), .digit (utf16 "0"), .digit (utf16 "1"), .digit (utf16 "2"),
       .decimal]).currentOperandDisplay = utf16 "123456789012." ∧
    (utf16 "123456789012.").length = 13 ∧
    (run initialState
      [.digit (utf16 "0"), .operator (utf16 "-"), .digit (utf16 "1"), .operator (utf16 "/"),
       .digit (utf16 "3"), .equals]).currentOperandDisplay = utf16 "-0.3333333333" ∧
    (utf16 "-0.3333333333").length = 13 := by
  refine ⟨⟨_, ?_, rfl⟩, by decide!, by decide!, by decide!, by decide!⟩
  decide!

/-! ### Decimal points on the display -/

/-- A text includes `.` exactly when its count of decimal points is not zero. -/
theorem includes_point_iff (t : JSString) : includes t (code '.') = true ↔ dotCount t ≠ 0 := by
  simp [includes, dotCount, List.count_eq_zero]

/-- A digit key holds no decimal point. -/
theorem dotCount_digitKey (d : JSString) (hd : isDigitKey d = true) : dotCount d = 0 := by
  match d, hd with
  | [c], h =>
    have hc : 48 ≤ c := by
      simp [isDigitKey, isDigit] at h
      exact h.1
    have hne : c ≠ code '.' := by
      have : code '.' = 46 := by decide
      omega
    simp [dotCount, List.count_cons, hne]

/-- Appending texts adds their counts of decimal points. -/
theorem dotCount_append (a b : JSString) : dotCount (a ++ b) = dotCount a + dotCount b := by
  simp [dotCount]

/-- Dropping the last code unit does not add a decimal point. -/
theorem dotCount_dropLast_le (t : JSString) : dotCount t.dropLast ≤ dotCount t :=
  (List.dropLast_sublist t).count_le _

/-- Each editing event keeps the display at one decimal point at most. -/
theorem step_dotCount_le_one (s : State) (e : Event) (he : e.editing = true)
    (h : dotCount s.currentOperandDisplay ≤ 1) :
    dotCount (step s e).currentOperandDisplay ≤ 1 := by
  cases e with
  | digit d =>
    have hd : dotCount d = 0 := dotCount_digitKey d he
    simp only [step, inputDigit]
    split
    · simp [hd]
    · split
      · exact h
      · simp only [dotCount_append, hd]; omega
  | decimal =>
    simp only [step, inputDecimal]
    split
    · show dotCount (utf16 "0.") ≤ 1
      decide
    · split
      · exact h
      · next hinc =>
        have h0 : dotCount s.currentOperandDisplay = 0 := by
          by_contra hne
          exact hinc ((includes_point_iff _).2 hne)
        simp only [dotCount_append, h0]
        decide
  | backspace =>
    simp only [step, backspace]
    split
    · exact h
    · split
      · show dotCount (utf16 "0") ≤ 1
        decide
      · exact le_trans (dotCount_dropLast_le _) h
  | operator op => simp [Event.editing] at he
  | equals => simp [Event.editing] at he
  | clear => simp [Event.editing] at he
  | percent => simp [Event.editing] at he

/-- A run of editing events keeps the display at one decimal point at most. -/
theorem run_dotCount_le_one (events : List Event) :
    ∀ s : State, (∀ e ∈ events, e.editing = true) → dotCount s.currentOperandDisplay ≤ 1 →
      dotCount (run s events).currentOperandDisplay ≤ 1 := by
  induction events with
  | nil => intro s _ h; exact h
  | cons e rest ih =>
    intro s hev h
    have he : e.editing = true := hev e (by simp)
    have hrest : ∀ e1 ∈ rest, e1.editing = true := fun e1 h1 => hev e1 (by simp [h1])
    exact ih (step s e) hrest (step_dotCount_le_one s e he h)

/-- C11: from a display with at most one `.`, every sequence of `inputDecimal`,
`inputDigit` (digits 0-9) and `backspace` calls leaves at most one `.` on the
display; `inputDecimal` writes `0.` and clears the flag when the reset flag is
set, changes nothing when the display includes `.`, and appends `.` otherwise. -/
theorem inputDecimal_invariant (s : State) (events : List Event)
    (hev : ∀ e ∈ events, e.editing = true)
    (h : dotCount s.currentOperandDisplay ≤ 1) :
    dotCount (run s events).currentOperandDisplay ≤ 1 ∧
    (s.shouldResetDisplay = true →
      inputDecimal s = { s with currentOperandDisplay := utf16 "0.", shouldResetDisplay := false }) ∧
    (s.shouldResetDisplay = false → includes s.currentOperandDisplay (code '.') = true →
      inputDecimal s = s) ∧
    (s.shouldResetDisplay = false → includes s.currentOperandDisplay (code '.') = false →
      inputDecimal s =
        { s with currentOperandDisplay := s.currentOperandDisplay ++ utf16 "." }) := by
  refine ⟨run_dotCount_le_one events s hev h, ?_, ?_, ?_⟩
  · intro hf; simp [inputDecimal, hf]
  · intro hf hi; simp [inputDecimal, hf, hi]
  · intro hf hi; simp [inputDecimal, hf, hi]

/-- Witness for C11: 1, `.`, 5, `.`, backspace, `.` from the initial state. -/
theorem inputDecimal_invariant_witness :
    dotCount (run initialState [.digit (utf16 "1"), .decimal, .digit (utf16 "5"), .decimal,
      .backspace, .decimal]).currentOperandDisplay ≤ 1 :=
  (inputDecimal_invariant initialState
    [.digit (utf16 "1"), .decimal, .digit (utf16 "5"), .decimal, .backspace, .decimal]
    (by decide) (by decide)).1

/-! ### Editing the display -/

/-- C13: `backspace` changes nothing when the reset flag is set; otherwise it
writes `0` when the display has one code unit, or two with a leading `-`, and in
the remaining cases it removes exactly the last code unit; only the display is
assigned.  So 7 then backspace shows `0`. -/
theorem backspace_transition (s : State) :
    (s.shouldResetDisplay = true → backspace s = s) ∧
    (s.shouldResetDisplay = false →
      (s.currentOperandDisplay.length = 1 ∨
        (s.currentOperandDisplay.length = 2 ∧
          startsWith s.currentOperandDisplay (utf16 "-") = true)) →
      backspace s = { s with currentOperandDisplay := utf16 "0" }) ∧
    (s.shouldResetDisplay = false →
      ¬ (s.currentOperandDisplay.length = 1 ∨
        (s.currentOperandDisplay.length = 2 ∧
          startsWith s.currentOperandDisplay (utf16 "-") = true)) →
      backspace s = { s with currentOperandDisplay := s.currentOperandDisplay.dropLast } ∧
      ∀ (t : JSString) (c : Nat), s.currentOperandDisplay = t ++ [c] →
        backspace s = { s with currentOperandDisplay := t }) ∧
    (run initialState [.digit (utf16 "7"), .backspace]).currentOperandDisplay = utf16 "0" := by
  refine ⟨?_, ?_, ?_, by decide⟩
  · intro hf
    simp [backspace, hf]
  · intro hf hc
    rcases hc with hc | ⟨hc, hm⟩
    · simp [backspace, hf, hc]
    · simp [backspace, hf, hc, hm]
  · intro hf hc
    have hb : backspace s =
        { s with currentOperandDisplay := s.currentOperandDisplay.dropLast } := by
      have h1 : s.currentOperandDisplay.length ≠ 1 := fun h => hc (Or.inl h)
      have h2 : ¬ (s.currentOperandDisplay.length = 2 ∧
          startsWith s.currentOperandDisplay (utf16 "-") = true) := fun h => hc (Or.inr h)
      unfold backspace
      simp only [hf, Bool.false_eq_true, if_false]
      rw [if_neg]
      simp only [Bool.or_eq_true, Bool.and_eq_true, decide_eq_true_eq]
      rintro (h | h)
      · exact h1 h
      · exact h2 h
    refine ⟨hb, ?_⟩
    intro t c ht
    rw [hb, ht, List.dropLast_concat]

/-- C15: when the reset flag is set or the display is exactly `0`, `inputDigit(d)`
writes `d` on the display and clears the flag; otherwise, below 12 code units, it
appends `d` and keeps the flag; first operand, pending operator and `lastResult`
(and the second operand and the secondary display) never change. -/
theorem inputDigit_transition (s : State) (d : JSString) :
    ((s.shouldResetDisplay = true ∨ s.currentOperandDisplay = utf16 "0") →
      (inputDigit d s).currentOperandDisplay = d ∧
      (inputDigit d s).shouldResetDisplay = false) ∧
    (s.shouldResetDisplay = false → s.currentOperandDisplay ≠ utf16 "0" →
      s.currentOperandDisplay.length < 12 →
      (inputDigit d s).currentOperandDisplay = s.currentOperandDisplay ++ d ∧
      (inputDigit d s).shouldResetDisplay = s.shouldResetDisplay) ∧
    ((inputDigit d s).firstNumber = s.firstNumber ∧
      (inputDigit d s).currentOperator = s.currentOperator ∧
      (inputDigit d s).lastResult = s.lastResult ∧
      (inputDigit d s).secondNumber = s.secondNumber ∧
      (inputDigit d s).previousOperandDisplay = s.previousOperandDisplay) := by
  refine ⟨?_, ?_, ?_⟩
  · intro h
    rcases h with h | h
    · simp [inputDigit, h]
    · simp [inputDigit, h]
  · intro hf hne hlt
    have hge : ¬ (12 ≤ s.currentOperandDisplay.length) := by omega
    simp [inputDigit, hf, hne, hge]
  · unfold inputDigit
    split
    · exact ⟨rfl, rfl, rfl, rfl, rfl⟩
    · split <;> exact ⟨rfl, rfl, rfl, rfl, rfl⟩

/-! ### Idempotence and last operator wins -/

/-- For an operator key, `operate` gives the marker or a Number, never `null`. -/
theorem operate_key_result (op a b : JSString) (hkey : isOperatorKey op = true) :
    operate op a b = errorMarker ∨ ∃ r, operate op a b = .num r := by
  simp only [isOperatorKey, decide_eq_true_eq] at hkey
  rcases hkey with h | h | h | h
  · subst h; right
    exact ⟨add (parseFloat a) (parseFloat b), by simp [operate]⟩
  · subst h; right
    exact ⟨subtract (parseFloat a) (parseFloat b), by simp [operate, utf16_plus, utf16_minus]⟩
  · subst h; right
    exact ⟨multiply (parseFloat a) (parseFloat b),
      by simp [operate, utf16_plus, utf16_minus, utf16_times]⟩
  · subst h
    by_cases hz : (parseFloat b).isZero = true
    · left; exact (operate_eq_marker_iff _ _ _).2 ⟨rfl, hz⟩
    · right
      refine ⟨parseFloat a / parseFloat b, ?_⟩
      simp [operate, utf16_plus, utf16_minus, utf16_times, utf16_slash, divide, hz]

/-- An operator key is not the empty string. -/
theorem operatorKey_ne_nil (op : JSString) (hkey : isOperatorKey op = true) : op ≠ [] := by
  intro h; subst h; revert hkey; decide

/-- The equals handler changes nothing when no operator is pending. -/
theorem calculate_of_none (s : State) (h : s.currentOperator = none) : calculate s = s := by
  simp [calculate, h, truthyOperator]

/-- The secondary display does not enter into what `updatePreviousDisplay` writes. -/
theorem updatePreviousDisplay_congr (s : State) (p : JSString) :
    updatePreviousDisplay { s with previousOperandDisplay := p } = updatePreviousDisplay s := by
  unfold updatePreviousDisplay
  split <;> rfl

/-- The operator handler when there is no calculation to chain. -/
theorem inputOperator_capture (s : State) (op : JSString)
    (h : s.firstNumber = [] ∨ truthyOperator s.currentOperator = false ∨
      s.shouldResetDisplay = true) :
    inputOperator op s =
      updatePreviousDisplay
        { s with firstNumber := s.currentOperandDisplay, currentOperator := some op,
                 shouldResetDisplay := true } := by
  have hc : (truthy s.firstNumber && truthyOperator s.currentOperator &&
      !s.shouldResetDisplay) = false := by
    rcases h with h | h | h
    · simp [h, truthy]
    · simp [h]
    · simp [h]
  unfold inputOperator
  simp only [hc]
  rfl

/-- C19: for a state whose pending operator is `null` or one of `+ - * /`,
`calculate` applied twice gives the same state, display texts included, as
`calculate` applied once. -/
theorem calculate_idempotent (s : State)
    (hop : s.currentOperator = none ∨
      ∃ op, s.currentOperator = some op ∧ isOperatorKey op = true) :
    calculate (calculate s) = calculate s := by
  rcases hop with hnone | ⟨op, hop, hkey⟩
  · rw [calculate_of_none s hnone, calculate_of_none s hnone]
  · by_cases hf : s.firstNumber = []
    · have hs : calculate s = s := by simp [calculate, hf, truthy]
      rw [hs, hs]
    · have h0 := operatorKey_ne_nil op hkey
      rcases operate_key_result op s.firstNumber s.currentOperandDisplay hkey with hr | ⟨r, hr⟩
      · rw [calculate_of_marker s op hf hop h0 hr]
        exact calculate_of_none _ rfl
      · rw [calculate_of_num s op r hf hop h0 hr]
        exact calculate_of_none _ rfl

/-- Witness for C19: equals pressed twice after 3, +, 4, and after 8, /, 0. -/
theorem calculate_idempotent_witness :
    calculate (calculate (run initialState
      [.digit (utf16 "3"), .operator (utf16 "+"), .digit (utf16 "4")])) =
    calculate (run initialState
      [.digit (utf16 "3"), .operator (utf16 "+"), .digit (utf16 "4")]) ∧
    calculate (calculate (run initialState
      [.digit (utf16 "8"), .operator (utf16 "/"), .digit (utf16 "0")])) =
    calculate (run initialState
      [.digit (utf16 "8"), .operator (utf16 "/"), .digit (utf16 "0")]) :=
  ⟨calculate_idempotent _ (Or.inr ⟨utf16 "+", by decide!, by decide⟩),
   calculate_idempotent _ (Or.inr ⟨utf16 "/", by decide!, by decide⟩)⟩

/-- C20: in a state with no calculation to chain (first operand empty, or no
pending operator, or the reset flag set), `inputOperator(op1)` followed by
`inputOperator(op2)` gives the same state, display texts included, as
`inputOperator(op2)` alone; the second press only records `op2` and rewrites the
secondary display. -/
theorem inputOperator_last_wins (s : State) (op1 op2 : JSString)
    (h : s.firstNumber = [] ∨ truthyOperator s.currentOperator = false ∨
      s.shouldResetDisplay = true) :
    inputOperator op2 (inputOperator op1 s) = inputOperator op2 s ∧
    inputOperator op2 (inputOperator op1 s) =
      updatePreviousDisplay { inputOperator op1 s with currentOperator := some op2 } := by
  have h1 := inputOperator_capture s op1 h
  have hshape : ∀ t : State, ∃ p, updatePreviousDisplay t =
      { t with previousOperandDisplay := p } := by
    intro t
    unfold updatePreviousDisplay
    split <;> exact ⟨_, rfl⟩
  obtain ⟨p, hp⟩ := hshape
    { s with firstNumber := s.currentOperandDisplay, currentOperator := some op1,
             shouldResetDisplay := true }
  rw [hp] at h1
  rw [h1, inputOperator_capture _ op2 (Or.inr (Or.inr rfl))]
  constructor
  · rw [inputOperator_capture s op2 h]
    exact updatePreviousDisplay_congr
      { s with firstNumber := s.currentOperandDisplay, currentOperator := some op2,
               shouldResetDisplay := true } p
  · rfl

/-- Witness for C20: `+` then `*` after 3, and `*` alone after 3. -/
theorem inputOperator_last_wins_witness :
    inputOperator (utf16 "*") (inputOperator (utf16 "+") (run initialState [.digit (utf16 "3")]))
      = inputOperator (utf16 "*") (run initialState [.digit (utf16 "3")]) :=
  (inputOperator_last_wins (run initialState [.digit (utf16 "3")]) (utf16 "+") (utf16 "*")
    (Or.inl (by decide))).1

/-! ### The text of a Number is never empty -/

/-- The digit helper returns a text that is not empty once it has fuel or digits. -/
theorem decimalDigitsAux_ne_nil (fuel : Nat) :
    ∀ (n : Nat) (acc : JSString), fuel ≠ 0 ∨ acc ≠ [] → decimalDigitsAux fuel n acc ≠ [] := by
  induction fuel with
  | zero =>
    intro n acc h
    rcases h with h | h
    · exact absurd rfl h
    · simpa [decimalDigitsAux] using h
  | succ k ih =>
    intro n acc _
    unfold decimalDigitsAux
    split
    · simp
    · exact ih _ _ (Or.inr (by simp))

/-- The decimal digits of a natural number are not empty. -/
theorem decimalDigits_ne_nil (n : Nat) : decimalDigits n ≠ [] :=
  decimalDigitsAux_ne_nil (n + 1) n [] (Or.inl (by simp))

/-- The formatted text of digits that are not empty is not empty. -/
theorem formatDigits_ne_nil (ds : JSString) (n : Int) (h : ds ≠ []) : formatDigits ds n ≠ [] := by
  have hp : utf16 "." ≠ [] := by decide
  have hz : utf16 "0." ≠ [] := by decide
  have he : utf16 "e" ≠ [] := by decide
  unfold formatDigits
  simp only
  split
  · simp [h]
  · split
    · simp [hp]
    · split
      · simp [hz]
      · split
        · simp [h]
        · simp [hp]

/-- The text of a Number is never the empty string. -/
theorem toString_ne_nil (x : JSNumber) : x.toString ≠ [] := by
  cases x with
  | nan => decide
  | inf neg => cases neg <;> decide
  | fin neg m e =>
    simp only [JSNumber.toString]
    split
    · decide
    · intro hnil
      exact formatDigits_ne_nil _ _ (decimalDigits_ne_nil _) (List.append_eq_nil.1 hnil).2

/-- The text `updateDisplay` shows for a Number is never the empty string. -/
theorem roundedText_ne_nil (x : JSNumber) : roundedText x ≠ [] := by
  unfold roundedText
  split
  · exact toString_ne_nil _
  · exact toString_ne_nil _

/-! ### The invariant of the reachable states -/

/-- The initial state satisfies the invariant. -/
theorem wellFormed_initialState : wellFormed initialState := by
  refine ⟨by decide, ?_⟩
  simp [initialState]

/-- The invariant does not read the secondary display. -/
theorem wellFormed_updatePreviousDisplay (s : State) (h : wellFormed s) :
    wellFormed (updatePreviousDisplay s) := by
  obtain ⟨f1, -, f3, -, -, f6⟩ := updatePreviousDisplay_fields s
  unfold wellFormed
  rw [f1, f3, f6]
  exact h

/-- A digit key is not the empty string. -/
theorem digitKey_ne_nil (d : JSString) (hd : isDigitKey d = true) : d ≠ [] := by
  intro h; subst h; simp [isDigitKey] at hd

/-- Each valid event keeps the invariant. -/
theorem wellFormed_step (s : State) (e : Event) (he : e.valid = true) (h : wellFormed s) :
    wellFormed (step s e) := by
  obtain ⟨hdisp, hop⟩ := h
  cases e with
  | digit d =>
    have hd : d ≠ [] := digitKey_ne_nil d he
    simp only [step, inputDigit]
    split
    · exact ⟨hd, hop⟩
    · split
      · exact ⟨hdisp, hop⟩
      · exact ⟨by simp [hdisp], hop⟩
  | decimal =>
    simp only [step, inputDecimal]
    split
    · exact ⟨(by decide : utf16 "0." ≠ []), hop⟩
    · split
      · exact ⟨hdisp, hop⟩
      · exact ⟨by simp [hdisp], hop⟩
  | operator op =>
    have hkey : isOperatorKey op = true := he
    simp only [step]
    by_cases hc : s.firstNumber = [] ∨ truthyOperator s.currentOperator = false ∨
        s.shouldResetDisplay = true
    · rw [inputOperator_capture s op hc]
      exact wellFormed_updatePreviousDisplay _ ⟨hdisp, hkey, hdisp⟩
    · have hf : s.firstNumber ≠ [] := fun h1 => hc (Or.inl h1)
      have hflag : s.shouldResetDisplay = false := by
        cases hs : s.shouldResetDisplay
        · rfl
        · exact absurd (Or.inr (Or.inr hs)) hc
      cases hcur : s.currentOperator with
      | none => exact absurd (Or.inr (Or.inl (by simp [hcur, truthyOperator]))) hc
      | some op0 =>
        rw [hcur] at hop
        have h0 : op0 ≠ [] := operatorKey_ne_nil op0 hop.1
        rcases operate_key_result op0 s.firstNumber s.currentOperandDisplay hop.1 with
          hr | ⟨r, hr⟩
        · rw [inputOperator_of_marker s op op0 hf hcur h0 hflag hr]
          exact wellFormed_initialState
        · rw [inputOperator_of_num s op op0 r hf hcur h0 hflag hr]
          exact wellFormed_updatePreviousDisplay _
            ⟨roundedText_ne_nil r, hkey, toString_ne_nil r⟩
  | equals =>
    simp only [step]
    cases hcur : s.currentOperator with
    | none =>
      rw [calculate_of_none s hcur]
      refine ⟨hdisp, ?_⟩
      rw [hcur]
      trivial
    | some op0 =>
      have hop1 := hop
      rw [hcur] at hop1
      have h0 : op0 ≠ [] := operatorKey_ne_nil op0 hop1.1
      rcases operate_key_result op0 s.firstNumber s.currentOperandDisplay hop1.1 with
        hr | ⟨r, hr⟩
      · rw [calculate_of_marker s op0 hop1.2 hcur h0 hr]
        exact wellFormed_initialState
      · rw [calculate_of_num s op0 r hop1.2 hcur h0 hr]
        exact ⟨roundedText_ne_nil r, trivial⟩
  | clear =>
    simp only [step, clearAll_eq_initialState]
    exact wellFormed_initialState
  | backspace =>
    simp only [step, backspace]
    split
    · exact ⟨hdisp, hop⟩
    · split
      · exact ⟨(by decide : utf16 "0" ≠ []), hop⟩
      · next hlen =>
        refine ⟨?_, hop⟩
        show s.currentOperandDisplay.dropLast ≠ []
        intro hnil
        have h1 : s.currentOperandDisplay.dropLast.length = 0 := by rw [hnil]; rfl
        rw [List.length_dropLast] at h1
        have h2 : s.currentOperandDisplay.length ≠ 0 := by
          intro h3; exact hdisp (List.length_eq_zero.1 h3)
        have h3 : s.currentOperandDisplay.length = 1 := by omega
        exact hlen (by simp [h3])
  | percent =>
    simp only [step, percent, updateDisplay_num]
    exact ⟨roundedText_ne_nil _, hop⟩

/-- A run of valid events keeps the invariant. -/
theorem wellFormed_run (events : List Event) :
    ∀ s : State, (∀ e ∈ events, e.valid = true) → wellFormed s → wellFormed (run s events) := by
  induction events with
  | nil => intro s _ h; exact h
  | cons e rest ih =>
    intro s hev h
    have he : e.valid = true := hev e (by simp)
    have hrest : ∀ e1 ∈ rest, e1.valid = true := fun e1 h1 => hev e1 (by simp [h1])
    exact ih (step s e) hrest (wellFormed_step s e he h)

/-- C12: in every state reached from the initial state by valid events (digits
0-9, operators `+ - * /`, decimal point, equals, clear, backspace, percent), the
primary display is not the empty string, and a pending operator comes with a
first operand that is not empty. -/
theorem pending_operator_has_first_operand (s : State) (h : Reachable s) :
    s.currentOperandDisplay ≠ [] ∧ (s.currentOperator ≠ none → s.firstNumber ≠ []) := by
  obtain ⟨events, hev, hrun⟩ := h
  have hw := wellFormed_run events initialState hev wellFormed_initialState
  rw [hrun] at hw
  obtain ⟨hdisp, hop⟩ := hw
  refine ⟨hdisp, ?_⟩
  intro hne
  cases hcur : s.currentOperator with
  | none => exact absurd hcur hne
  | some op =>
    rw [hcur] at hop
    exact hop.2

/-- Witness for C12: the state after 3, + has a pending operator and the first operand `3`. -/
theorem pending_operator_has_first_operand_witness :
    (run initialState [.digit (utf16 "3"), .operator (utf16 "+")]).currentOperator ≠ none ∧
    (run initialState [.digit (utf16 "3"), .operator (utf16 "+")]).firstNumber ≠ [] :=
  ⟨by decide,
   (pending_operator_has_first_operand
      (run initialState [.digit (utf16 "3"), .operator (utf16 "+")])
      ⟨[.digit (utf16 "3"), .operator (utf16 "+")], by decide, rfl⟩).2 (by decide)⟩

/-! ### Results on the display -/

/-- C14 (counterexample): after 0, -, 7, = the display shows `-7`, and after a
following backspace it is not `0`. -/
theorem backspace_negative_result_not_zero :
    (run initialState [.digit (utf16 "0"), .operator (utf16 "-"), .digit (utf16 "7"),
      .equals]).currentOperandDisplay = utf16 "-7" ∧
    (run initialState [.digit (utf16 "0"), .operator (utf16 "-"), .digit (utf16 "7"),
      .equals, .backspace]).currentOperandDisplay ≠ utf16 "0" := by
  decide!

/-- C14 (amended): a calculation that gives a Number sets the reset flag, so a
following backspace changes nothing: after 0, -, 7, = and backspace the display
still shows `-7`.  Backspace turns a display `-7` into `0` in a state whose reset
flag is unset. -/
theorem backspace_after_result :
    (∀ (s : State) (op0 : JSString) (r : JSNumber),
      s.firstNumber ≠ [] → s.currentOperator = some op0 → op0 ≠ [] →
      operate op0 s.firstNumber s.currentOperandDisplay = .num r →
      backspace (calculate s) = calculate s) ∧
    (run initialState [.digit (utf16 "0"), .operator (utf16 "-"), .digit (utf16 "7"),
      .equals]).shouldResetDisplay = true ∧
    (run initialState [.digit (utf16 "0"), .operator (utf16 "-"), .digit (utf16 "7"),
      .equals, .backspace]).currentOperandDisplay = utf16 "-7" ∧
    (∀ s : State, s.currentOperandDisplay = utf16 "-7" → s.shouldResetDisplay = false →
      (backspace s).currentOperandDisplay = utf16 "0") := by
  refine ⟨?_, by decide!, by decide!, ?_⟩
  · intro s op0 r hf hop h0 hr
    rw [calculate_of_num s op0 r hf hop h0 hr]
    simp [backspace]
  · intro s hd hflag
    have hl : (utf16 "-7").length = 2 := by decide
    have hs : startsWith (utf16 "-7") (utf16 "-") = true := by decide
    simp [backspace, hflag, hd, hl, hs]

/-- C16: `percent` writes the display text parsed, divided by 100 and rendered by
`updateDisplay` (rounded when long) on the primary display and assigns nothing
else; 5, 0, percent from the initial state shows `0.5`. -/
theorem percent_transition (s : State) :
    percent s =
      { s with currentOperandDisplay :=
          roundedText (parseFloat s.currentOperandDisplay / JSNumber.ofNat 100) } ∧
    (run initialState [.digit (utf16 "5"), .digit (utf16 "0"), .percent]).currentOperandDisplay
      = utf16 "0.5" := by
  refine ⟨?_, by decide!⟩
  simp [percent, updateDisplay_num]

/-- C17 (as the code behaves): after 1, /, 3, = the first operand holds the full
text `0.3333333333333333` and the display the rounded `0.3333333333`; a following
operator stores the rounded display text as first operand, so 1, /, 3, =, *, 3, =
shows `0.9999999999` where the chained 1, /, 3, *, 3, = shows `1`. -/
theorem rounded_display_feeds_back :
    (run initialState [.digit (utf16 "1"), .operator (utf16 "/"), .digit (utf16 "3"),
      .equals]).firstNumber = utf16 "0.3333333333333333" ∧
    (run initialState [.digit (utf16 "1"), .operator (utf16 "/"), .digit (utf16 "3"),
      .equals]).currentOperandDisplay = utf16 "0.3333333333" ∧
    (run initialState [.digit (utf16 "1"), .operator (utf16 "/"), .digit (utf16 "3"),
      .equals, .operator (utf16 "*")]).firstNumber = utf16 "0.3333333333" ∧
    (run initialState [.digit (utf16 "1"), .operator (utf16 "/"), .digit (utf16 "3"),
      .equals, .operator (utf16 "*"), .digit (utf16 "3"), .equals]).currentOperandDisplay
      = utf16 "0.9999999999" ∧
    (run initialState [.digit (utf16 "1"), .operator (utf16 "/"), .digit (utf16 "3"),
      .operator (utf16 "*"), .digit (utf16 "3"), .equals]).currentOperandDisplay
      = utf16 "1" := by
  decide!

/-- The primary display after `updateDisplay` of a Number. -/
theorem updateDisplay_num_display (x : JSNumber) (s : State) :
    (updateDisplay (.num x) s).currentOperandDisplay = roundedText x := by
  rw [updateDisplay_num]

/-- The state after a list of valid events is reachable. -/
theorem reachable_run (events : List Event) (h : ∀ e ∈ events, e.valid = true) :
    Reachable (run initialState events) :=
  ⟨events, h, rfl⟩

/-- Every key of `overflowKeys` is a valid event. -/
theorem overflowKeys_valid : ∀ e ∈ overflowKeys, e.valid = true := by decide!

/-- The state after the run `overflowKeys`. -/
theorem overflowKeys_state :
    run initialState overflowKeys =
      { firstNumber := utf16 "1.7976931348000006e+308", secondNumber := [],
        currentOperator := none, shouldResetDisplay := true,
        lastResult := .num (.fin false 9007199254428766 971),
        currentOperandDisplay := utf16 "Infinity",
        previousOperandDisplay := utf16 "1.7976931348000005e+297 × 100000000000 =" } := by
  decide!

/-- The result of the run `overflowKeys` is a finite Number. -/
theorem overflowKeys_lastResult :
    (run initialState overflowKeys).lastResult = .num (.fin false 9007199254428766 971) := by
  rw [overflowKeys_state]

/-- The primary display after the run `overflowKeys`. -/
theorem overflowKeys_display :
    (run initialState overflowKeys).currentOperandDisplay = utf16 "Infinity" := by
  rw [overflowKeys_state]

/-- The text of the result of `overflowKeys`. -/
theorem overflowResult_toString :
    (JSNumber.fin false 9007199254428766 971).toString = utf16 "1.7976931348000006e+308" := by
  decide!

/-- The result of `overflowKeys` rounded to 10 significant digits. -/
theorem overflowResult_toPrecision :
    (JSNumber.fin false 9007199254428766 971).toPrecision 10 = utf16 "1.797693135e+308" := by
  decide!

/-- The text `updateDisplay` shows for the result of `overflowKeys`. -/
theorem overflowResult_roundedText :
    roundedText (.fin false 9007199254428766 971) = utf16 "Infinity" := by
  decide!

/-- C18 (counterexample): the 377 valid keys of `overflowKeys` reach a state whose
result is the finite Number `1.7976931348000006e+308`; rounded to 10 significant
digits it reads `1.797693135e+308`, and the primary display shows `Infinity`. -/
theorem updateDisplay_overflow_shows_infinity :
    Reachable (run initialState overflowKeys) ∧
    (run initialState overflowKeys).lastResult = .num (.fin false 9007199254428766 971) ∧
    (JSNumber.fin false 9007199254428766 971).toString = utf16 "1.7976931348000006e+308" ∧
    (JSNumber.fin false 9007199254428766 971).toPrecision 10 = utf16 "1.797693135e+308" ∧
    (run initialState overflowKeys).currentOperandDisplay = utf16 "Infinity" ∧
    (updateDisplay (.num (.fin false 9007199254428766 971)) initialState).currentOperandDisplay
      = utf16 "Infinity" ∧
    utf16 "Infinity" ≠ utf16 "1.797693135e+308" :=
  ⟨reachable_run overflowKeys overflowKeys_valid, overflowKeys_lastResult,
    overflowResult_toString, overflowResult_toPrecision, overflowKeys_display,
    (updateDisplay_num_display _ initialState).trans overflowResult_roundedText,
    by decide⟩

/-- C18 (amended): for a Number `v`, `updateDisplay` shows the text of `v` when it
has at most 12 code units (so `NaN`, the infinities and the zeros are shown as they
are), and otherwise the text of `parseFloat(v.toPrecision(10))`: `v` rounded to 10
significant digits and then to the nearest Number, which is `Infinity` when the
rounded decimal lies above the largest finite Number, as for
`1.7976931348000006e+308`, whose rounding `1.797693135e+308` parses to `Infinity`.
The result of 1 / 3, whose text is `0.3333333333333333`, is shown as
`0.3333333333`, and that of 2 / 3 as `0.6666666667`. -/
theorem updateDisplay_rounding (v : JSNumber) (s : State) :
    (v.toString.length ≤ 12 →
      updateDisplay (.num v) s = { s with currentOperandDisplay := v.toString }) ∧
    (12 < v.toString.length →
      updateDisplay (.num v) s =
        { s with currentOperandDisplay := (parseFloat (v.toPrecision 10)).toString }) ∧
    (updateDisplay (.num .nan) s).currentOperandDisplay = utf16 "NaN" ∧
    (updateDisplay (.num (.inf false)) s).currentOperandDisplay = utf16 "Infinity" ∧
    (updateDisplay (.num (.inf true)) s).currentOperandDisplay = utf16 "-Infinity" ∧
    (∀ (neg : Bool) (e : Int),
      (updateDisplay (.num (.fin neg 0 e)) s).currentOperandDisplay = utf16 "0") ∧
    (JSNumber.ofNat 1 / JSNumber.ofNat 3).toString = utf16 "0.3333333333333333" ∧
    (JSNumber.ofNat 1 / JSNumber.ofNat 3).toPrecision 10 = utf16 "0.3333333333" ∧
    (updateDisplay (.num (JSNumber.ofNat 1 / JSNumber.ofNat 3)) s).currentOperandDisplay
      = utf16 "0.3333333333" ∧
    (run initialState [.digit (utf16 "1"), .operator (utf16 "/"), .digit (utf16 "3"),
      .equals]).currentOperandDisplay = utf16 "0.3333333333" ∧
    (updateDisplay (.num (JSNumber.ofNat 2 / JSNumber.ofNat 3)) s).currentOperandDisplay
      = utf16 "0.6666666667" ∧
    (12 < (JSNumber.fin false 9007199254428766 971).toString.length ∧
      (JSNumber.fin false 9007199254428766 971).toPrecision 10 = utf16 "1.797693135e+308" ∧
      parseFloat (utf16 "1.797693135e+308") = .inf false ∧
      (updateDisplay (.num (.fin false 9007199254428766 971)) s).currentOperandDisplay
        = utf16 "Infinity") := by
  refine ⟨?_, ?_, ?_, ?_, ?_, ?_, by decide!, by decide!, ?_, by decide!, ?_,
    by decide!, overflowResult_toPrecision, by decide!, ?_⟩
  · intro h
    have h1 : ¬ (v.toString.length > 12) := by omega
    simp [updateDisplay_num, roundedText, h1]
  · intro h
    simp [updateDisplay_num, roundedText, h]
  · have h : roundedText .nan = utf16 "NaN" := by decide!
    exact (updateDisplay_num_display _ s).trans h
  · have h : roundedText (.inf false) = utf16 "Infinity" := by decide!
    exact (updateDisplay_num_display _ s).trans h
  · have h : roundedText (.inf true) = utf16 "-Infinity" := by decide!
    exact (updateDisplay_num_display _ s).trans h
  · intro neg e
    have h : roundedText (.fin neg 0 e) = utf16 "0" := by
      have h0 : (JSNumber.fin neg 0 e).toString = utf16 "0" := by simp [JSNumber.toString]
      have hl : ¬ ((utf16 "0").length > 12) := by decide
      simp [roundedText, h0, hl]
    exact (updateDisplay_num_display _ s).trans h
  · have h : roundedText (JSNumber.ofNat 1 / JSNumber.ofNat 3) = utf16 "0.3333333333" := by
      decide!
    exact (updateDisplay_num_display _ s).trans h
  · have h : roundedText (JSNumber.ofNat 2 / JSNumber.ofNat 3) = utf16 "0.6666666667" := by
      decide!
    exact (updateDisplay_num_display _ s).trans h
  · exact (updateDisplay_num_display _ s).trans overflowResult_roundedText

end Calculator
